import Mathlib

/-!
Verification of `cirq/linalg/tolerance.py`.

Scalars are modelled as `Option ℚ`: `some v` is an ordinary (finite) floating
point value, `none` models NaN.  Arithmetic on `none` propagates it, and any
order comparison involving `none` is false, matching IEEE semantics for NaN.
Arrays are modelled as flat lists of such scalars; the claims are settled for
equal-shape inputs (the elementwise case of numpy broadcasting).
-/

/-- A floating point value: `some v` a finite value (exact rational), `none` NaN. -/
def FVal : Type := Option ℚ

/-- Python float `x % p`: floored modulo, `x - p * floor (x / p)`.
Uses the executable `Rat.floor` so that concrete instances evaluate. -/
def pymod (x p : ℚ) : ℚ := x - p * (Rat.floor (x / p) : ℚ)

theorem ratFloor_eq_floor (q : ℚ) : Rat.floor q = ⌊q⌋ := by
  rw [Rat.floor_def, Rat.floor_def']

theorem pymod_eq_fract (x p : ℚ) (hp : p ≠ 0) : pymod x p = p * Int.fract (x / p) := by
  unfold pymod Int.fract
  rw [ratFloor_eq_floor]
  field_simp

theorem pymod_nonneg (x p : ℚ) (hp : 0 < p) : 0 ≤ pymod x p := by
  rw [pymod_eq_fract x p hp.ne']
  have h := Int.fract_nonneg (x / p)
  positivity

theorem pymod_lt (x p : ℚ) (hp : 0 < p) : pymod x p < p := by
  rw [pymod_eq_fract x p hp.ne']
  calc p * Int.fract (x / p) < p * 1 := mul_lt_mul_of_pos_left (Int.fract_lt_one (x / p)) hp
    _ = p := mul_one p

/-- Model of `numpy.isclose` on one pair of elements:
`|x - y| <= atol + rtol * |y|`, with both-NaN equal exactly when `equal_nan`,
and any other NaN combination false. -/
def np.isclose1 (rtol atol : ℚ) (equal_nan : Bool) : FVal → FVal → Bool
  | some xv, some yv => decide (|xv - yv| ≤ atol + rtol * |yv|)
  | none, none => equal_nan
  | _, _ => false

/-- Model of `numpy.allclose` on two equal-shape arrays (flattened to lists):
elementwise `np.isclose1` over corresponding positions. -/
def np.allclose (a b : List FVal) (rtol atol : ℚ) (equal_nan : Bool) : Bool :=
  (a.zip b).all fun p => np.isclose1 rtol atol equal_nan p.1 p.2

/-- `DEFAULT_RTOL: float = 1e-5` -/
def tolerance.DEFAULT_RTOL : ℚ := 1 / 100000

/-- `DEFAULT_ATOL: float = 1e-8` -/
def tolerance.DEFAULT_ATOL : ℚ := 1 / 100000000

/-- `DEFAULT_EQUAL_NAN: bool = False` -/
def tolerance.DEFAULT_EQUAL_NAN : Bool := false

/-- `all_close(a, b, rtol, atol, equal_nan) = np.allclose(a, b, rtol=rtol, atol=atol, equal_nan=equal_nan)` -/
def tolerance.all_close (a b : List FVal) (rtol atol : ℚ) (equal_nan : Bool) : Bool :=
  np.allclose a b rtol atol equal_nan

/-- `all_near_zero(a, rtol, atol, equal_nan) = all_close(a, np.zeros(np.shape(a)), rtol, atol, equal_nan)` -/
def tolerance.all_near_zero (a : List FVal) (rtol atol : ℚ) (equal_nan : Bool) : Bool :=
  tolerance.all_close a (List.replicate a.length (some 0)) rtol atol equal_nan

/-- One element of `(np.array(a) + period / 2) % period - period / 2`;
NaN propagates through the arithmetic. -/
def foldPeriod (p : ℚ) : FVal → FVal
  | some v => some (pymod (v + p / 2) p - p / 2)
  | none => none

/-- `all_near_zero_mod(a, period, rtol, atol, equal_nan) =
all_close((np.array(a) + period / 2) % period - period / 2, np.zeros(np.shape(a)), rtol, atol, equal_nan)` -/
def tolerance.all_near_zero_mod (a : List FVal) (period rtol atol : ℚ) (equal_nan : Bool) : Bool :=
  tolerance.all_close (a.map (foldPeriod period)) (List.replicate a.length (some 0))
    rtol atol equal_nan

/-- `close(a, b, rtol, atol) = abs(a - b) <= atol + rtol * abs(b)`;
a comparison involving NaN is false. -/
def tolerance.close (a b : FVal) (rtol atol : ℚ) : Bool :=
  match a, b with
  | some av, some bv => decide (|av - bv| ≤ atol + rtol * |bv|)
  | _, _ => false

/-- `near_zero(a, atol) = abs(a) <= atol`; false when `a` is NaN. -/
def tolerance.near_zero (a : FVal) (atol : ℚ) : Bool :=
  match a with
  | some av => decide (|av| ≤ atol)
  | none => false

/-- `near_zero_mod(a, period, atol) = near_zero((a + period / 2) % period - period / 2, atol)` -/
def tolerance.near_zero_mod (a : FVal) (period atol : ℚ) : Bool :=
  tolerance.near_zero (foldPeriod period a) atol

/-- `class Tolerance`: `rtol`, `atol`, `equal_nan` as set by `__init__`. -/
structure tolerance.Tolerance where
  rtol : ℚ
  atol : ℚ
  equal_nan : Bool

/-- Method `Tolerance.all_close(self, a, b) = all_close(a, b, self.rtol, self.atol)`:
the source passes only `rtol` and `atol`, so `equal_nan` falls back to the
module default `DEFAULT_EQUAL_NAN`. -/
def tolerance.Tolerance.all_close (t : tolerance.Tolerance) (a b : List FVal) : Bool :=
  tolerance.all_close a b t.rtol t.atol tolerance.DEFAULT_EQUAL_NAN

/-- Method `Tolerance.all_near_zero(self, a) = all_near_zero(a, self.rtol, self.atol, self.equal_nan)` -/
def tolerance.Tolerance.all_near_zero (t : tolerance.Tolerance) (a : List FVal) : Bool :=
  tolerance.all_near_zero a t.rtol t.atol t.equal_nan

/-- Method `Tolerance.all_near_zero_mod(self, a, period)` -/
def tolerance.Tolerance.all_near_zero_mod (t : tolerance.Tolerance) (a : List FVal)
    (period : ℚ) : Bool :=
  tolerance.all_near_zero_mod a period t.rtol t.atol t.equal_nan

/-- Method `Tolerance.close(self, a, b) = close(a, b, atol=self.atol, rtol=self.rtol)` -/
def tolerance.Tolerance.close (t : tolerance.Tolerance) (a b : FVal) : Bool :=
  tolerance.close a b t.rtol t.atol

/-- Method `Tolerance.near_zero(self, a) = near_zero(a, atol=self.atol)` -/
def tolerance.Tolerance.near_zero (t : tolerance.Tolerance) (a : FVal) : Bool :=
  tolerance.near_zero a t.atol

/-- Method `Tolerance.near_zero_mod(self, a, period) = near_zero_mod(a, period, atol=self.atol)` -/
def tolerance.Tolerance.near_zero_mod (t : tolerance.Tolerance) (a : FVal)
    (period : ℚ) : Bool :=
  tolerance.near_zero_mod a period t.atol

/-- `Tolerance.ZERO = Tolerance(rtol=0, atol=0)` with the constructor default `equal_nan=False`. -/
def tolerance.Tolerance.ZERO : tolerance.Tolerance := ⟨0, 0, false⟩

/-- `Tolerance.DEFAULT = Tolerance()` with constructor defaults `rtol=1e-5, atol=1e-8, equal_nan=False`. -/
def tolerance.Tolerance.DEFAULT : tolerance.Tolerance := ⟨1 / 100000, 1 / 100000000, false⟩

/-- The closeness condition of one element pair, written from the words of the
spec: the bound `|x - y| <= atol + rtol * |y|` for ordinary values, a both-NaN
pair counts as close exactly when `equal_nan` is set, and any other NaN makes
the position fail. -/
def specElemClose (rtol atol : ℚ) (equal_nan : Bool) : FVal → FVal → Prop
  | some xv, some yv => |xv - yv| ≤ atol + rtol * |yv|
  | none, none => equal_nan = true
  | _, _ => False

theorem isclose1_iff (rtol atol : ℚ) (en : Bool) (x y : FVal) :
    np.isclose1 rtol atol en x y = true ↔ specElemClose rtol atol en x y := by
  cases x <;> cases y <;> simp [np.isclose1, specElemClose]

theorem close_eq_true_iff (a b rtol atol : ℚ) :
    tolerance.close (some a) (some b) rtol atol = true ↔ |a - b| ≤ atol + rtol * |b| := by
  simp [tolerance.close]

theorem abs_small : |(1:ℚ) - (1 + 1 / 10000000000)| = 1 / 10000000000 := by
  rw [show (1:ℚ) - (1 + 1 / 10000000000) = -(1 / 10000000000) from by ring, abs_neg,
    abs_of_nonneg (by norm_num : (0:ℚ) ≤ 1 / 10000000000)]

theorem abs_one_plus : |(1:ℚ) + 1 / 10000000000| = 1 + 1 / 10000000000 :=
  abs_of_nonneg (by norm_num)

/-- Claim C1: the bound method `Tolerance.all_close` does NOT supply the stored
`equal_nan` field: the source passes only `self.rtol` and `self.atol`, so the
free function runs with the default `equal_nan=False`.  On a `Tolerance` built
with `equal_nan=True`, the method applied to `([nan], [nan])` returns false
while the free function with all three stored fields returns true. -/
theorem C1_method_all_close_drops_equal_nan :
    tolerance.Tolerance.all_close
        ⟨tolerance.DEFAULT_RTOL, tolerance.DEFAULT_ATOL, true⟩ [none] [none] = false
    ∧ tolerance.all_close [none] [none]
        tolerance.DEFAULT_RTOL tolerance.DEFAULT_ATOL true = true :=
  ⟨rfl, rfl⟩

theorem allclose_replicate_zero (a : List FVal) (rtol atol : ℚ) (en : Bool) :
    np.allclose a (List.replicate a.length (some 0)) rtol atol en
      = a.all fun x => np.isclose1 rtol atol en x (some 0) := by
  induction a with
  | nil => rfl
  | cons x a ih =>
    simp only [np.allclose, List.length_cons, List.replicate_succ, List.zip_cons_cons,
      List.all_cons] at ih ⊢
    rw [ih]

/-- Claim C3: `all_near_zero(a, rtol, atol, equal_nan)` returns exactly the
result of `all_close(a, z, rtol, atol, equal_nan)` with `z` an all-zeros array
of the shape of `a`; equivalently it is true iff every element of `a` is within
the tolerance band of zero. -/
theorem C3_all_near_zero_eq_all_close_zeros (a : List FVal) (rtol atol : ℚ) (en : Bool) :
    tolerance.all_near_zero a rtol atol en
        = tolerance.all_close a (List.replicate a.length (some 0)) rtol atol en
    ∧ (tolerance.all_near_zero a rtol atol en = true
        ↔ ∀ x ∈ a, specElemClose rtol atol en x (some 0)) := by
  refine ⟨rfl, ?_⟩
  rw [show tolerance.all_near_zero a rtol atol en
      = np.allclose a (List.replicate a.length (some 0)) rtol atol en from rfl,
    allclose_replicate_zero, List.all_eq_true]
  constructor
  · intro h x hx
    exact (isclose1_iff rtol atol en x (some 0)).mp (h x hx)
  · intro h x hx
    exact (isclose1_iff rtol atol en x (some 0)).mpr (h x hx)

/-- Claim C4: the scalar `close(a, b, rtol, atol)` is true iff
`|a - b| <= atol + rtol * |b|`, and any NaN argument makes it false. -/
theorem C4_close_spec :
    (∀ (a b rtol atol : ℚ),
      tolerance.close (some a) (some b) rtol atol = true ↔ |a - b| ≤ atol + rtol * |b|)
    ∧ (∀ (x : FVal) (rtol atol : ℚ),
      tolerance.close none x rtol atol = false ∧ tolerance.close x none rtol atol = false) := by
  constructor
  · intro a b rtol atol
    exact close_eq_true_iff a b rtol atol
  · intro x rtol atol
    cases x <;> simp [tolerance.close]

/-- Claim C7: the scalar close predicate is asymmetric: `close(0, 100, 1, 0)` is
true while `close(100, 0, 1, 0)` is false, because the relative bound scales
with the magnitude of the second argument only. -/
theorem C7_close_asymmetric :
    tolerance.close (some 0) (some 100) 1 0 = true
    ∧ tolerance.close (some 100) (some 0) 1 0 = false := by
  constructor
  · rw [close_eq_true_iff]
    rw [show (0:ℚ) - 100 = -100 from by ring, abs_neg,
      abs_of_nonneg (by norm_num : (0:ℚ) ≤ 100)]
    norm_num
  · rw [show tolerance.close (some 100) (some 0) 1 0
        = decide (|(100:ℚ) - 0| ≤ 0 + 1 * |(0:ℚ)|) from rfl]
    simp only [decide_eq_false_iff_not]
    rw [sub_zero, abs_of_nonneg (by norm_num : (0:ℚ) ≤ 100), abs_zero]
    norm_num

/-- Claim C9: the singletons have the documented fields, `ZERO.close` rejects a
`1e-10` perturbation of 1 and `DEFAULT.close` accepts it. -/
theorem C9_singletons :
    tolerance.Tolerance.ZERO = ⟨0, 0, false⟩
    ∧ tolerance.Tolerance.DEFAULT = ⟨1 / 100000, 1 / 100000000, false⟩
    ∧ tolerance.Tolerance.ZERO.close (some 1) (some (1 + 1 / 10000000000)) = false
    ∧ tolerance.Tolerance.DEFAULT.close (some 1) (some (1 + 1 / 10000000000)) = true := by
  refine ⟨rfl, rfl, ?_, ?_⟩
  · rw [show tolerance.Tolerance.ZERO.close (some 1) (some (1 + 1 / 10000000000))
        = decide (|(1:ℚ) - (1 + 1 / 10000000000)|
            ≤ 0 + 0 * |(1:ℚ) + 1 / 10000000000|) from rfl]
    simp only [decide_eq_false_iff_not]
    rw [abs_small, abs_one_plus]
    norm_num
  · rw [show tolerance.Tolerance.DEFAULT.close (some 1) (some (1 + 1 / 10000000000))
        = decide (|(1:ℚ) - (1 + 1 / 10000000000)|
            ≤ 1 / 100000000 + 1 / 100000 * |(1:ℚ) + 1 / 10000000000|) from rfl]
    simp only [decide_eq_true_eq]
    rw [abs_small, abs_one_plus]
    norm_num

/-- Claim C10: `near_zero(a, atol)` agrees with `close(a, 0, rtol, atol)` for
every `rtol`: the relative term vanishes against the reference value zero. -/
theorem C10_near_zero_eq_close_zero (x : FVal) (rtol atol : ℚ) :
    tolerance.near_zero x atol = tolerance.close x (some 0) rtol atol := by
  cases x with
  | none => rfl
  | some v => simp [tolerance.near_zero, tolerance.close, sub_zero, abs_zero]

theorem allclose_iff_forall (rtol atol : ℚ) (en : Bool) (a : List FVal) :
    ∀ (b : List FVal), a.length = b.length →
      (np.allclose a b rtol atol en = true ↔
        ∀ (i : ℕ) (ha : i < a.length) (hb : i < b.length),
          specElemClose rtol atol en (a.get ⟨i, ha⟩) (b.get ⟨i, hb⟩)) := by
  induction a with
  | nil =>
    intro b hb
    cases b with
    | nil =>
      constructor
      · intro _ i hi
        exact absurd hi (Nat.not_lt_zero i)
      · intro _
        rfl
    | cons y b => simp at hb
  | cons x a ih =>
    intro b hb
    cases b with
    | nil => simp at hb
    | cons y b =>
      simp only [List.length_cons, add_left_inj] at hb
      rw [show np.allclose (x :: a) (y :: b) rtol atol en
          = (np.isclose1 rtol atol en x y && np.allclose a b rtol atol en) from rfl]
      rw [Bool.and_eq_true, ih b hb, isclose1_iff]
      constructor
      · rintro ⟨h0, hrest⟩ i ha hbi
        cases i with
        | zero => exact h0
        | succ n => exact hrest n (Nat.lt_of_succ_lt_succ ha) (Nat.lt_of_succ_lt_succ hbi)
      · intro hall
        refine ⟨hall 0 (Nat.succ_pos _) (Nat.succ_pos _), ?_⟩
        intro n hn hbn
        exact hall (n + 1) (Nat.succ_lt_succ hn) (Nat.succ_lt_succ hbn)

/-- Claim C2: on equal-shape arrays, `all_close(a, b, rtol, atol, equal_nan)`
is true iff every pair of corresponding elements x, y satisfies
`|x - y| <= atol + rtol * |y|`, where a both-NaN pair counts as satisfying the
bound exactly when `equal_nan` is set, and any other NaN fails that position. -/
theorem C2_all_close_elementwise (a b : List FVal) (rtol atol : ℚ) (en : Bool)
    (h : a.length = b.length) :
    tolerance.all_close a b rtol atol en = true ↔
      ∀ (i : ℕ) (ha : i < a.length) (hb : i < b.length),
        specElemClose rtol atol en (a.get ⟨i, ha⟩) (b.get ⟨i, hb⟩) :=
  allclose_iff_forall rtol atol en a b h

theorem C2_witness :
    ([none, some 1] : List FVal).length = ([none, some 2] : List FVal).length
    ∧ (tolerance.all_close [none, some 1] [none, some 2] 1 2 true = true ↔
        ∀ (i : ℕ) (ha : i < ([none, some 1] : List FVal).length)
          (hb : i < ([none, some 2] : List FVal).length),
          specElemClose 1 2 true (List.get [none, some 1] ⟨i, ha⟩)
            (List.get [none, some 2] ⟨i, hb⟩)) :=
  ⟨rfl, C2_all_close_elementwise [none, some 1] [none, some 2] 1 2 true rfl⟩

theorem allclose_self (a : List FVal) (rtol atol : ℚ) (en : Bool)
    (hnn : ∀ x ∈ a, x ≠ none) (hr : 0 ≤ rtol) (ha : 0 ≤ atol) :
    np.allclose a a rtol atol en = true := by
  induction a with
  | nil => rfl
  | cons x a ih =>
    cases x with
    | none => exact absurd rfl (hnn none (List.mem_cons_self _ _))
    | some v =>
      rw [show np.allclose (some v :: a) (some v :: a) rtol atol en
          = (np.isclose1 rtol atol en (some v) (some v) && np.allclose a a rtol atol en)
          from rfl]
      rw [Bool.and_eq_true]
      constructor
      · rw [isclose1_iff]
        show |v - v| ≤ atol + rtol * |v|
        rw [sub_self, abs_zero]
        exact add_nonneg ha (mul_nonneg hr (abs_nonneg v))
      · exact ih fun y hy => hnn y (List.mem_cons_of_mem _ hy)

/-- Claim C8: reflexivity: for a NaN-free array `a` and nonnegative tolerances,
`all_close(a, a, rtol, atol, equal_nan)` is true for either `equal_nan` flag,
and the scalar `close(v, v, rtol, atol)` is true for every ordinary value. -/
theorem C8_reflexivity (a : List FVal) (rtol atol : ℚ) (en : Bool)
    (hnn : ∀ x ∈ a, x ≠ none) (hr : 0 ≤ rtol) (ha : 0 ≤ atol) :
    tolerance.all_close a a rtol atol en = true
    ∧ ∀ v : ℚ, tolerance.close (some v) (some v) rtol atol = true := by
  constructor
  · exact allclose_self a rtol atol en hnn hr ha
  · intro v
    rw [close_eq_true_iff, sub_self, abs_zero]
    exact add_nonneg ha (mul_nonneg hr (abs_nonneg v))

theorem C8_witness :
    (∀ x ∈ ([some 2, some 0] : List FVal), x ≠ none) ∧ (0:ℚ) ≤ 1 ∧ (0:ℚ) ≤ 1
    ∧ (tolerance.all_close [some 2, some 0] [some 2, some 0] 1 1 false = true
        ∧ ∀ v : ℚ, tolerance.close (some v) (some v) 1 1 = true) := by
  have hnn : ∀ x ∈ ([some 2, some 0] : List FVal), x ≠ none := by simp
  exact ⟨hnn, by norm_num, by norm_num,
    C8_reflexivity [some 2, some 0] 1 1 false hnn (by norm_num) (by norm_num)⟩

theorem foldPeriod_three_four : foldPeriod 4 (some 3) = some (-1) := by
  rw [show foldPeriod 4 (some 3) = some (pymod (3 + 4 / 2) 4 - 4 / 2) from rfl]
  norm_num [pymod, ratFloor_eq_floor]

theorem foldPeriod_four_four : foldPeriod 4 (some 4) = some 0 := by
  rw [show foldPeriod 4 (some 4) = some (pymod (4 + 4 / 2) 4 - 4 / 2) from rfl]
  norm_num [pymod, ratFloor_eq_floor]

/-- Claim C5: `all_near_zero_mod(a, period, ...)` equals `all_near_zero` on the
array of folded elements `((v + period/2) mod period) - period/2`, each folded
value lies in `[-period/2, period/2)` for a positive period, and with default
tolerances the folding sends `[3.0]` with period 4 to `-1` (result false) and
`[4.0]` with period 4 to `0` (result true). -/
theorem C5_all_near_zero_mod_spec (a : List FVal) (p rtol atol : ℚ) (en : Bool)
    (hp : 0 < p) :
    tolerance.all_near_zero_mod a p rtol atol en
        = tolerance.all_near_zero (a.map (foldPeriod p)) rtol atol en
    ∧ (∀ v : ℚ, -(p / 2) ≤ pymod (v + p / 2) p - p / 2
        ∧ pymod (v + p / 2) p - p / 2 < p / 2)
    ∧ tolerance.all_near_zero_mod [some 3] 4
        tolerance.DEFAULT_RTOL tolerance.DEFAULT_ATOL false = false
    ∧ tolerance.all_near_zero_mod [some 4] 4
        tolerance.DEFAULT_RTOL tolerance.DEFAULT_ATOL false = true := by
  refine ⟨?_, ?_, ?_, ?_⟩
  · unfold tolerance.all_near_zero_mod tolerance.all_near_zero
    rw [List.length_map]
  · intro v
    constructor
    · have h := pymod_nonneg (v + p / 2) p hp
      linarith
    · have h := pymod_lt (v + p / 2) p hp
      linarith
  · rw [show tolerance.all_near_zero_mod [some 3] 4
          tolerance.DEFAULT_RTOL tolerance.DEFAULT_ATOL false
        = (np.isclose1 tolerance.DEFAULT_RTOL tolerance.DEFAULT_ATOL false
            (foldPeriod 4 (some 3)) (some 0) && true) from rfl]
    rw [foldPeriod_three_four]
    rw [show np.isclose1 tolerance.DEFAULT_RTOL tolerance.DEFAULT_ATOL false
          (some (-1)) (some 0)
        = decide (|(-1:ℚ) - 0| ≤ tolerance.DEFAULT_ATOL + tolerance.DEFAULT_RTOL * |(0:ℚ)|)
        from rfl]
    simp only [Bool.and_true, decide_eq_false_iff_not]
    rw [sub_zero, abs_neg, abs_one, abs_zero]
    norm_num [tolerance.DEFAULT_ATOL, tolerance.DEFAULT_RTOL]
  · rw [show tolerance.all_near_zero_mod [some 4] 4
          tolerance.DEFAULT_RTOL tolerance.DEFAULT_ATOL false
        = (np.isclose1 tolerance.DEFAULT_RTOL tolerance.DEFAULT_ATOL false
            (foldPeriod 4 (some 4)) (some 0) && true) from rfl]
    rw [foldPeriod_four_four]
    rw [show np.isclose1 tolerance.DEFAULT_RTOL tolerance.DEFAULT_ATOL false
          (some 0) (some 0)
        = decide (|(0:ℚ) - 0| ≤ tolerance.DEFAULT_ATOL + tolerance.DEFAULT_RTOL * |(0:ℚ)|)
        from rfl]
    simp only [Bool.and_true, decide_eq_true_eq]
    rw [sub_zero, abs_zero]
    norm_num [tolerance.DEFAULT_ATOL, tolerance.DEFAULT_RTOL]

theorem C5_witness :
    (0:ℚ) < 1
    ∧ (tolerance.all_near_zero_mod [none] 1 0 0 false
          = tolerance.all_near_zero (List.map (foldPeriod 1) [none]) 0 0 false
        ∧ (∀ v : ℚ, -(1 / 2 : ℚ) ≤ pymod (v + 1 / 2) 1 - 1 / 2
            ∧ pymod (v + 1 / 2) 1 - 1 / 2 < 1 / 2)
        ∧ tolerance.all_near_zero_mod [some 3] 4
            tolerance.DEFAULT_RTOL tolerance.DEFAULT_ATOL false = false
        ∧ tolerance.all_near_zero_mod [some 4] 4
            tolerance.DEFAULT_RTOL tolerance.DEFAULT_ATOL false = true) :=
  ⟨by norm_num, C5_all_near_zero_mod_spec [none] 1 0 0 false (by norm_num)⟩

/-- Claim C6: `near_zero_mod(a, period, atol)` is `near_zero` of the folded
value `((a + period/2) mod period) - period/2`, and a full-period input (the
input equal to the period itself) folds to zero, so it is accepted for any
nonnegative `atol`. -/
theorem C6_near_zero_mod_spec (a p atol : ℚ) (hp : 0 < p) (hatol : 0 ≤ atol) :
    tolerance.near_zero_mod (some a) p atol
        = tolerance.near_zero (some (pymod (a + p / 2) p - p / 2)) atol
    ∧ tolerance.near_zero_mod (some p) p atol = true := by
  constructor
  · rfl
  · have hdiv : (p + p / 2) / p = 3 / 2 := by
      field_simp
      ring
    have hfold : pymod (p + p / 2) p - p / 2 = 0 := by
      unfold pymod
      rw [ratFloor_eq_floor, hdiv]
      rw [show ((⌊(3 / 2 : ℚ)⌋ : ℚ)) = 1 from by norm_num]
      ring
    rw [show tolerance.near_zero_mod (some p) p atol
        = tolerance.near_zero (some (pymod (p + p / 2) p - p / 2)) atol from rfl, hfold]
    rw [show tolerance.near_zero (some 0) atol = decide (|(0:ℚ)| ≤ atol) from rfl]
    simp only [decide_eq_true_eq]
    rw [abs_zero]
    exact hatol

theorem C6_witness :
    (0:ℚ) < 2 ∧ (0:ℚ) ≤ 0
    ∧ (tolerance.near_zero_mod (some 5) 2 0
          = tolerance.near_zero (some (pymod (5 + 2 / 2) 2 - 2 / 2)) 0
        ∧ tolerance.near_zero_mod (some 2) 2 0 = true) :=
  ⟨by norm_num, le_refl 0, C6_near_zero_mod_spec 5 2 0 (by norm_num) (le_refl 0)⟩
